import Mathlib

/-!
Verification of the two-stage caption/story pipeline in `server/main.py`.

Strings are modelled as `List Char` (Python `str`).  The two remote HTTP
calls are modelled by an `HttpOutcome` value supplied to each stage: the
parsed JSON body of a successful response is the list of candidate
objects, each reduced to its optional `generated_text` field.
-/

set_option autoImplicit false
set_option maxRecDepth 4000000

namespace Phord

/-- Convert a Lean string literal to the `List Char` representation. -/
def strL (s : String) : List Char := s.data

/-- Python whitespace characters relevant to `str.strip` (ASCII subset). -/
def isPyWs (c : Char) : Bool :=
  c = ' ' || c = '\t' || c = '\n' || c = '\r' || c = '\x0b' || c = '\x0c'

/-- Python `s.strip()`: drop leading and trailing whitespace. -/
def stripL (s : List Char) : List Char :=
  ((s.dropWhile isPyWs).reverse.dropWhile isPyWs).reverse

/-- Left-to-right scan behind `removeAll`: `skip` counts characters still
to be discarded because they belong to an occurrence of `pat` already
matched; at `skip = 0` the scan tests for an occurrence of `pat` at the
current position and, on a match, discards its `pat.length` characters. -/
def removeAllGo (pat : List Char) : Nat → List Char → List Char
  | _, [] => []
  | k + 1, _ :: cs => removeAllGo pat k cs
  | 0, c :: cs =>
    if pat.isPrefixOf (c :: cs) then removeAllGo pat (pat.length - 1) cs
    else c :: removeAllGo pat 0 cs

/-- Python `s.replace(pat, "")`: remove every non-overlapping occurrence of
`pat` from `s`, scanning left to right.  (For an empty pattern and empty
replacement Python returns `s` unchanged, as here.) -/
def removeAll (pat s : List Char) : List Char :=
  match pat with
  | [] => s
  | _ :: _ => removeAllGo pat 0 s

/-- `containsL pat s` decides whether `pat` occurs as a contiguous substring
of `s` (Python `pat in s`). -/
def containsL (pat : List Char) : List Char → Bool
  | [] => pat.isEmpty
  | c :: cs => pat.isPrefixOf (c :: cs) || containsL pat cs

/-- The default filler sentence used when the user prompt is empty
(`'Tell an interesting story about this scene.'` in `generate_story`). -/
def fillerL : List Char := strL "Tell an interesting story about this scene."

/-- The fixed creative-writing preamble of the composed instruction, up to
and including the image-description header. -/
def preambleL : List Char :=
  strL "Write a creative and engaging short story based on this image description and prompt.\n\nImage Description: "

/-- The additional-context header inserted between the caption and the
context text. -/
def contextHeaderL : List Char := strL "\nAdditional Context: "

/-- The trailing cue of the composed instruction. -/
def storyCueL : List Char := strL "\n\nStory:"

/-- The composed story-generation instruction (`story_prompt` in
`generate_story`): fixed preamble, the caption as image description, the
user prompt (or the default filler, when the prompt is empty, matching
Python truthiness) as additional context, and the `Story:` cue. -/
def story_prompt (caption prompt : List Char) : List Char :=
  preambleL ++ caption ++ contextHeaderL
    ++ (if prompt = [] then fillerL else prompt) ++ storyCueL

/-- One application of the clean-up step in `generate_story`:
`story.replace(story_prompt, "").strip()`. -/
def stripOnce (pat s : List Char) : List Char := stripL (removeAll pat s)

/-- A candidate object of an upstream JSON array, reduced to its optional
`generated_text` field. -/
abbrev Candidates := List (Option (List Char))

/-- Outcome of one outbound `requests.post` call: a response with an HTTP
status and parsed body, a timeout, or another transport failure. -/
inductive HttpOutcome where
  | ok (status : Nat) (body : Candidates)
  | timeout
  | transportError (msg : String)

/-- A FastAPI `HTTPException`: status code plus detail message. -/
structure HErr where
  status : Nat
  detail : String
deriving DecidableEq, Repr

/-- How a stage terminates abnormally: a raised `HTTPException`, or any
other Python exception escaping the stage (e.g. `IndexError`). -/
inductive StageErr where
  | exc (e : HErr)
  | py (msg : String)
deriving DecidableEq, Repr

/-- Message carried by the `requests` `HTTPError` raised by
`raise_for_status` for a 4xx/5xx response (model of `str(e)`). -/
def statusErrMsg (status : Nat) : String := toString status ++ " Error"

/-- `query_image`: post the image bytes to the captioning endpoint; map
HTTP 503 to a model-loading `HTTPException`, timeouts to 504, and any
other request failure to 500; otherwise return the parsed body. -/
def query_image (resp : HttpOutcome) : Except HErr Candidates :=
  match resp with
  | .ok status body =>
    if status = 503 then
      .error ⟨503, "Model is currently loading. Please try again in a few seconds."⟩
    else if 400 ≤ status ∧ status < 600 then
      .error ⟨500, "Error communicating with image captioning service: " ++ statusErrMsg status⟩
    else
      .ok body
  | .timeout =>
    .error ⟨504, "Request timed out. The server took too long to respond."⟩
  | .transportError m =>
    .error ⟨500, "Error communicating with image captioning service: " ++ m⟩

/-- `generate_story`: compose the story prompt, post it to the story
endpoint, map HTTP 503 / timeout / other request failures as in the
source, and on success extract `response.json()[0]["generated_text"]`
and clean it with `story.replace(story_prompt, "").strip()`.  A missing
index or field raises a plain Python exception (`.py`), uncaught by the
stage's own handlers. -/
def generate_story (caption prompt : List Char) (resp : HttpOutcome) :
    Except StageErr (List Char) :=
  let sp := story_prompt caption prompt
  match resp with
  | .ok status body =>
    if status = 503 then
      .error (.exc ⟨503, "Story generation model is currently loading. Please try again in a few seconds."⟩)
    else if 400 ≤ status ∧ status < 600 then
      .error (.exc ⟨500, "Error generating story: " ++ statusErrMsg status⟩)
    else
      match body with
      | [] => .error (.py "list index out of range")
      | none :: _ => .error (.py "KeyError: generated_text")
      | some raw :: _ => .ok (stripL (removeAll sp raw))
  | .timeout =>
    .error (.exc ⟨504, "Story generation timed out. Please try again."⟩)
  | .transportError m =>
    .error (.exc ⟨500, "Error generating story: " ++ m⟩)

/-- `caption_result[0]["generated_text"]` in the route body: the Python
exception message when the array is empty or the field missing. -/
def extract_first (body : Candidates) : Except String (List Char) :=
  match body with
  | [] => .error "list index out of range"
  | none :: _ => .error "KeyError: generated_text"
  | some t :: _ => .ok t

/-- The JSON object returned on success: `{"caption": ..., "story": ...}`. -/
structure PipelineResponse where
  caption : List Char
  story : List Char
deriving DecidableEq, Repr

/-- An observable event of one request: the outbound captioning call, or
the invocation of the story stage with its arguments (which performs the
outbound story call). -/
inductive CallEvent where
  | captionCall
  | storyCall (caption prompt : List Char)
deriving DecidableEq, Repr

deriving instance DecidableEq for Except

/-- Result of one request to `POST /caption-image`: the HTTP-level result
and the trace of outbound calls made while handling it. -/
structure RouteResult where
  result : Except HErr PipelineResponse
  calls : List CallEvent
deriving DecidableEq, Repr

/-- HTTP status of a route result (FastAPI returns 200 for a plain dict,
and the raised exception's status otherwise). -/
def httpStatus (r : Except HErr PipelineResponse) : Nat :=
  match r with
  | .ok _ => 200
  | .error e => e.status

/-- The `POST /caption-image` handler `caption_image`: validate the
declared media type, run the caption stage, extract the first
candidate's text, run the story stage, and return both strings.  A
raised `HTTPException` propagates unchanged; any other exception is
mapped by the final handler to a 500 "unexpected error". The `prompt`
query parameter defaults to the empty string when omitted. -/
def caption_image (mediaType : List Char) (promptQ : Option (List Char))
    (captionResp storyResp : HttpOutcome) : RouteResult :=
  let prompt := promptQ.getD []
  if ¬ (strL "image/").isPrefixOf mediaType then
    ⟨.error ⟨400, "Uploaded file must be an image"⟩, []⟩
  else
    match query_image captionResp with
    | .error e => ⟨.error e, [.captionCall]⟩
    | .ok body =>
      match extract_first body with
      | .error m => ⟨.error ⟨500, "An unexpected error occurred: " ++ m⟩, [.captionCall]⟩
      | .ok caption =>
        match generate_story caption prompt storyResp with
        | .error (.exc e) =>
          ⟨.error e, [.captionCall, .storyCall caption prompt]⟩
        | .error (.py m) =>
          ⟨.error ⟨500, "An unexpected error occurred: " ++ m⟩,
            [.captionCall, .storyCall caption prompt]⟩
        | .ok story =>
          ⟨.ok ⟨caption, story⟩, [.captionCall, .storyCall caption prompt]⟩

/-! ### Helper lemmas on the string primitives -/

/-- `List.isPrefixOf` agrees with the existence of a completing tail. -/
theorem isPrefixOf_iff_exists :
    ∀ pat s : List Char, pat.isPrefixOf s = true ↔ ∃ t, s = pat ++ t := by
  intro pat
  induction pat with
  | nil =>
    intro s
    simp [List.isPrefixOf]
  | cons p ps ih =>
    intro s
    cases s with
    | nil => simp [List.isPrefixOf]
    | cons c cs =>
      simp only [List.isPrefixOf, Bool.and_eq_true, beq_iff_eq, List.cons_append,
        List.cons.injEq]
      constructor
      · rintro ⟨hpc, hrest⟩
        obtain ⟨t, ht⟩ := (ih cs).mp hrest
        exact ⟨t, hpc.symm, ht⟩
      · rintro ⟨t, hcp, hcs⟩
        exact ⟨hcp.symm, (ih cs).mpr ⟨t, hcs⟩⟩

/-- A list is a Boolean prefix of itself followed by anything. -/
theorem isPrefixOf_append_self (pat t : List Char) : pat.isPrefixOf (pat ++ t) = true :=
  (isPrefixOf_iff_exists pat (pat ++ t)).mpr ⟨t, rfl⟩

/-- `containsL` holds on any explicit decomposition around the pattern. -/
theorem containsL_append (pat l r : List Char) : containsL pat (l ++ pat ++ r) = true := by
  induction l with
  | nil =>
    cases pat with
    | nil =>
      cases r with
      | nil => rfl
      | cons c cs => simp [containsL, List.isPrefixOf]
    | cons p ps =>
      have hp : (p :: ps).isPrefixOf (p :: (ps ++ r)) = true :=
        isPrefixOf_append_self (p :: ps) r
      simp [containsL, hp]
  | cons a l2 ih =>
    have hsplit : (a :: l2) ++ pat ++ r = a :: (l2 ++ pat ++ r) := by simp
    rw [hsplit]
    simp only [containsL, ih, Bool.or_true]

/-- A Boolean prefix is in particular a substring. -/
theorem containsL_of_isPrefixOf (pat s : List Char) (h : pat.isPrefixOf s = true) :
    containsL pat s = true := by
  cases s with
  | nil =>
    cases pat with
    | nil => rfl
    | cons p ps => simp [List.isPrefixOf] at h
  | cons c cs => simp [containsL, h]

/-- The scan of `removeAll` leaves a string without any occurrence of the
pattern unchanged. -/
theorem removeAllGo_eq_self (pat : List Char) :
    ∀ s : List Char, containsL pat s = false → removeAllGo pat 0 s = s := by
  intro s
  induction s with
  | nil => intro _; rfl
  | cons c cs ih =>
    intro h
    simp only [containsL, Bool.or_eq_false_iff] at h
    simp [removeAllGo, h.1, ih h.2]

/-- `removeAll` leaves a string without any occurrence of the pattern
unchanged. -/
theorem removeAll_eq_self (pat s : List Char) (h : containsL pat s = false) :
    removeAll pat s = s := by
  cases pat with
  | nil => rfl
  | cons p ps => exact removeAllGo_eq_self (p :: ps) s h

/-- `dropWhile` never lengthens a list. -/
theorem length_dropWhile_le_self (p : Char → Bool) :
    ∀ l : List Char, (List.dropWhile p l).length ≤ l.length := by
  intro l
  induction l with
  | nil => simp
  | cons c cs ih =>
    rw [List.dropWhile_cons]
    by_cases hc : p c
    · simp only [hc, if_true, List.length_cons]
      omega
    · simp [hc]

/-- If `dropWhile` keeps a nonempty list intact, its head fails the
predicate. -/
theorem head_fails_of_dropWhile_eq (p : Char → Bool) (c : Char) (d : List Char)
    (h : List.dropWhile p (c :: d) = c :: d) : p c = false := by
  cases hc : p c with
  | false => rfl
  | true =>
    exfalso
    rw [List.dropWhile_cons, hc, if_pos rfl] at h
    have hlen := congrArg List.length h
    simp only [List.length_cons] at hlen
    have hle := length_dropWhile_le_self p d
    omega

/-- Every list splits as junk, its stripped core, and junk. -/
theorem stripL_decomp (s : List Char) : ∃ l r, s = l ++ stripL s ++ r := by
  obtain ⟨l, hl⟩ :
      (s.dropWhile isPyWs <:+ s) := List.dropWhile_suffix isPyWs
  obtain ⟨t, ht⟩ :
      ((s.dropWhile isPyWs).reverse.dropWhile isPyWs <:+ (s.dropWhile isPyWs).reverse) :=
    List.dropWhile_suffix isPyWs
  refine ⟨l, t.reverse, ?_⟩
  have hA : s.dropWhile isPyWs = stripL s ++ t.reverse := by
    have := congrArg List.reverse ht
    simpa [stripL, List.reverse_append] using this.symm
  rw [List.append_assoc, ← hA, hl]

/-- If the pattern does not occur in a string, it is not a Boolean prefix
of the stripped string. -/
theorem not_pre_stripL_of_not_contains (pat x : List Char)
    (h : containsL pat x = false) : pat.isPrefixOf (stripL x) = false := by
  cases hb : pat.isPrefixOf (stripL x) with
  | false => rfl
  | true =>
    exfalso
    obtain ⟨t, ht⟩ := (isPrefixOf_iff_exists pat (stripL x)).mp hb
    obtain ⟨l, r, hx⟩ := stripL_decomp x
    have hx2 : x = l ++ pat ++ (t ++ r) := by
      rw [hx, ht]
      simp [List.append_assoc]
    rw [hx2, containsL_append] at h
    exact Bool.noConfusion h

/-- Stripping is idempotent: a second `strip` removes nothing more. -/
theorem stripL_idem (s : List Char) : stripL (stripL s) = stripL s := by
  have hA : List.dropWhile isPyWs (List.dropWhile isPyWs s) = List.dropWhile isPyWs s :=
    List.dropWhile_idempotent isPyWs s
  have hBidem :
      List.dropWhile isPyWs (List.dropWhile isPyWs (List.dropWhile isPyWs s).reverse)
        = List.dropWhile isPyWs (List.dropWhile isPyWs s).reverse :=
    List.dropWhile_idempotent isPyWs (List.dropWhile isPyWs s).reverse
  have hBrev : List.dropWhile isPyWs (stripL s) = stripL s := by
    cases hc : stripL s with
    | nil => simp
    | cons c d =>
      obtain ⟨t, ht⟩ :
          (List.dropWhile isPyWs (List.dropWhile isPyWs s).reverse
            <:+ (List.dropWhile isPyWs s).reverse) :=
        List.dropWhile_suffix isPyWs
      have hArev : List.dropWhile isPyWs s = stripL s ++ t.reverse := by
        have h2 := congrArg List.reverse ht
        simpa [stripL, List.reverse_append] using h2.symm
      have hAc : List.dropWhile isPyWs s = c :: (d ++ t.reverse) := by
        rw [hArev, hc]
        simp
      have hwc : isPyWs c = false := by
        apply head_fails_of_dropWhile_eq isPyWs c (d ++ t.reverse)
        rw [← hAc]
        exact hA
      rw [List.dropWhile_cons, hwc]
      simp
  show (((stripL s).dropWhile isPyWs).reverse.dropWhile isPyWs).reverse = stripL s
  rw [hBrev]
  have hrev : (stripL s).reverse = List.dropWhile isPyWs (List.dropWhile isPyWs s).reverse := by
    simp [stripL]
  rw [hrev, hBidem]
  simp [stripL]

/-- The composed instruction with an empty user prompt contains the default
filler sentence. -/
theorem contains_filler (c : List Char) : containsL fillerL (story_prompt c []) = true := by
  have h : story_prompt c [] = (preambleL ++ c ++ contextHeaderL) ++ fillerL ++ storyCueL := by
    simp [story_prompt, List.append_assoc]
  rw [h]
  exact containsL_append fillerL (preambleL ++ c ++ contextHeaderL) storyCueL

/-- The composed instruction with a nonempty user prompt contains the
user prompt verbatim. -/
theorem contains_user (c p : List Char) (hp : p ≠ []) :
    containsL p (story_prompt c p) = true := by
  have h : story_prompt c p = (preambleL ++ c ++ contextHeaderL) ++ p ++ storyCueL := by
    simp [story_prompt, hp, List.append_assoc]
  rw [h]
  exact containsL_append p (preambleL ++ c ++ contextHeaderL) storyCueL

/-! ### Claims -/

/-- Claim C1: on the success path — image media type, a captioning
response whose body is a non-empty candidate sequence — the pipeline takes
the generated_text of the first candidate as the caption, invokes the
story stage with exactly that literal caption string, and returns the
caption/story pair with HTTP 200. -/
theorem claim1_success_pipeline (mt p c sraw : List Char) (rest srest : Candidates)
    (h : (strL "image/").isPrefixOf mt = true) :
    caption_image mt (some p) (.ok 200 (some c :: rest)) (.ok 200 (some sraw :: srest)) =
      ⟨.ok ⟨c, stripL (removeAll (story_prompt c p) sraw)⟩,
        [.captionCall, .storyCall c p]⟩ ∧
    httpStatus (caption_image mt (some p) (.ok 200 (some c :: rest))
        (.ok 200 (some sraw :: srest))).result = 200 := by
  constructor
  · simp [caption_image, query_image, extract_first, generate_story, h]
  · simp [caption_image, query_image, extract_first, generate_story, httpStatus, h]

/-- Witness for C1 at concrete inputs. -/
theorem claim1_witness :
    caption_image (strL "image/png") (some (strL "p")) (.ok 200 [some (strL "cat")])
        (.ok 200 [some (strL "raw")]) =
      ⟨.ok ⟨strL "cat",
          stripL (removeAll (story_prompt (strL "cat") (strL "p")) (strL "raw"))⟩,
        [.captionCall, .storyCall (strL "cat") (strL "p")]⟩ ∧
    httpStatus (caption_image (strL "image/png") (some (strL "p"))
        (.ok 200 [some (strL "cat")]) (.ok 200 [some (strL "raw")])).result = 200 :=
  claim1_success_pipeline (strL "image/png") (strL "p") (strL "cat") (strL "raw") [] []
    (by decide)

/-- Claim C2: a declared media type that does not start with image/ fails
with HTTP 400 and records no outbound call at all. -/
theorem claim2_invalid_media_type (mt : List Char) (pq : Option (List Char))
    (cR sR : HttpOutcome) (h : (strL "image/").isPrefixOf mt = false) :
    caption_image mt pq cR sR = ⟨.error ⟨400, "Uploaded file must be an image"⟩, []⟩ := by
  simp [caption_image, h]

/-- Witness for C2 at media type text/plain. -/
theorem claim2_witness :
    caption_image (strL "text/plain") none .timeout .timeout =
      ⟨.error ⟨400, "Uploaded file must be an image"⟩, []⟩ :=
  claim2_invalid_media_type (strL "text/plain") none .timeout .timeout (by decide)

/-- Claim C3 as stated is false: with caption and prompt both empty and the
raw output `"Write" ++ P ++ P.drop 5` (where `P` is the composed prompt),
removing all occurrences of `P` reconstitutes `P` itself, so a first
strip yields `P` and a second strip yields the empty string. -/
theorem claim3_counterexample :
    stripOnce (story_prompt [] [])
        (stripOnce (story_prompt [] [])
          (strL "Write" ++ story_prompt [] [] ++ (story_prompt [] []).drop 5))
      ≠ stripOnce (story_prompt [] [])
          (strL "Write" ++ story_prompt [] [] ++ (story_prompt [] []).drop 5) := by
  decide

/-- Claim C3 (amended): prompt-stripping is idempotent whenever the composed
prompt does not occur in the once-stripped output (removal cannot have
reconstituted it); in that case stripping twice equals stripping once. -/
theorem claim3_amended (c p raw : List Char)
    (h : containsL (story_prompt c p) (stripOnce (story_prompt c p) raw) = false) :
    stripOnce (story_prompt c p) (stripOnce (story_prompt c p) raw)
      = stripOnce (story_prompt c p) raw := by
  show stripL (removeAll (story_prompt c p) (stripOnce (story_prompt c p) raw))
      = stripOnce (story_prompt c p) raw
  rw [removeAll_eq_self _ _ h]
  exact stripL_idem (removeAll (story_prompt c p) raw)

/-- Witness for the amended C3 at concrete inputs. -/
theorem claim3_witness :
    containsL (story_prompt (strL "cat") [])
        (stripOnce (story_prompt (strL "cat") []) (strL "hello")) = false ∧
    stripOnce (story_prompt (strL "cat") [])
        (stripOnce (story_prompt (strL "cat") []) (strL "hello"))
      = stripOnce (story_prompt (strL "cat") []) (strL "hello") :=
  ⟨by decide, claim3_amended (strL "cat") [] (strL "hello") (by decide)⟩

/-- Claim C4 as stated is false: for the raw output
`"Write" ++ P ++ P.drop 5` the story stage returns `P` itself, which has
the composed prompt `P` as a prefix. -/
theorem claim4_counterexample :
    generate_story [] []
        (.ok 200 [some (strL "Write" ++ story_prompt [] [] ++ (story_prompt [] []).drop 5)])
      = .ok (story_prompt [] []) ∧
    (story_prompt [] []).isPrefixOf (story_prompt [] []) = true :=
  ⟨by decide, by decide⟩

/-- Claim C4 (amended): the returned story does not have the composed
prompt as a prefix, provided removing all occurrences of the prompt from
the raw output does not reconstitute the prompt as a substring. -/
theorem claim4_amended (c p raw st : List Char) (rest : Candidates)
    (hgen : generate_story c p (.ok 200 (some raw :: rest)) = .ok st)
    (h : containsL (story_prompt c p) (removeAll (story_prompt c p) raw) = false) :
    (story_prompt c p).isPrefixOf st = false := by
  have hst : st = stripL (removeAll (story_prompt c p) raw) := by
    simp [generate_story] at hgen
    exact hgen.symm
  rw [hst]
  exact not_pre_stripL_of_not_contains (story_prompt c p) (removeAll (story_prompt c p) raw) h

/-- Witness for the amended C4 at concrete inputs. -/
theorem claim4_witness :
    (story_prompt (strL "cat") []).isPrefixOf (strL "hello") = false :=
  claim4_amended (strL "cat") [] (strL "hello") (strL "hello") [] (by decide) (by decide)

/-- Claim C5: a malformed upstream body — empty candidate array or missing
generated_text field, at either stage — makes the request fail with
HTTP 500. -/
theorem claim5_malformed_upstream_500 (mt c : List Char) (pq : Option (List Char))
    (sR : HttpOutcome) (rest rest2 : Candidates)
    (h : (strL "image/").isPrefixOf mt = true) :
    httpStatus (caption_image mt pq (.ok 200 []) sR).result = 500 ∧
    httpStatus (caption_image mt pq (.ok 200 (none :: rest)) sR).result = 500 ∧
    httpStatus (caption_image mt pq (.ok 200 (some c :: rest)) (.ok 200 [])).result = 500 ∧
    httpStatus (caption_image mt pq (.ok 200 (some c :: rest))
        (.ok 200 (none :: rest2))).result = 500 := by
  refine ⟨?_, ?_, ?_, ?_⟩ <;>
    simp [caption_image, query_image, extract_first, generate_story, httpStatus, h]

/-- Witness for C5 at concrete inputs. -/
theorem claim5_witness :
    httpStatus (caption_image (strL "image/png") none (.ok 200 []) .timeout).result = 500 ∧
    httpStatus (caption_image (strL "image/png") none (.ok 200 [none]) .timeout).result = 500 ∧
    httpStatus (caption_image (strL "image/png") none (.ok 200 [some (strL "cat")])
        (.ok 200 [])).result = 500 ∧
    httpStatus (caption_image (strL "image/png") none (.ok 200 [some (strL "cat")])
        (.ok 200 [none])).result = 500 :=
  claim5_malformed_upstream_500 (strL "image/png") (strL "cat") none .timeout [] []
    (by decide)

/-- Claim C6: a captioning response with HTTP 503 makes the pipeline fail
with HTTP 503 and the model-loading try-again message, independently of
the story service, which is never invoked. -/
theorem claim6_model_loading_503 (mt : List Char) (pq : Option (List Char))
    (body : Candidates) (sR : HttpOutcome)
    (h : (strL "image/").isPrefixOf mt = true) :
    caption_image mt pq (.ok 503 body) sR =
      ⟨.error ⟨503, "Model is currently loading. Please try again in a few seconds."⟩,
        [.captionCall]⟩ := by
  simp [caption_image, query_image, h]

/-- Witness for C6 at concrete inputs. -/
theorem claim6_witness :
    caption_image (strL "image/png") none (.ok 503 []) .timeout =
      ⟨.error ⟨503, "Model is currently loading. Please try again in a few seconds."⟩,
        [.captionCall]⟩ :=
  claim6_model_loading_503 (strL "image/png") none [] .timeout (by decide)

/-- Claim C7: a timed-out remote call fails the stage with HTTP 504; when
the story call times out after a successful caption stage, the caption was
computed (the story stage was invoked with it) but only the 504 error is
returned. -/
theorem claim7_timeout_504 (mt c : List Char) (pq : Option (List Char))
    (rest : Candidates) (sR : HttpOutcome)
    (h : (strL "image/").isPrefixOf mt = true) :
    caption_image mt pq .timeout sR =
      ⟨.error ⟨504, "Request timed out. The server took too long to respond."⟩,
        [.captionCall]⟩ ∧
    caption_image mt pq (.ok 200 (some c :: rest)) .timeout =
      ⟨.error ⟨504, "Story generation timed out. Please try again."⟩,
        [.captionCall, .storyCall c (pq.getD [])]⟩ := by
  constructor <;> simp [caption_image, query_image, extract_first, generate_story, h]

/-- Witness for C7 at concrete inputs. -/
theorem claim7_witness :
    caption_image (strL "image/png") none .timeout .timeout =
      ⟨.error ⟨504, "Request timed out. The server took too long to respond."⟩,
        [.captionCall]⟩ ∧
    caption_image (strL "image/png") none (.ok 200 [some (strL "cat")]) .timeout =
      ⟨.error ⟨504, "Story generation timed out. Please try again."⟩,
        [.captionCall, .storyCall (strL "cat") ((none : Option (List Char)).getD [])]⟩ :=
  claim7_timeout_504 (strL "image/png") (strL "cat") none [] .timeout (by decide)

/-- Claim C8: a non-success upstream status other than 503, or a non-timeout
transport failure, fails the stage with HTTP 500 wrapping the underlying
message, at both stages, and the route surfaces the 500. -/
theorem claim8_upstream_error_500 (status : Nat) (body : Candidates) (m : String)
    (c p mt : List Char) (pq : Option (List Char)) (sR : HttpOutcome)
    (h4 : 400 ≤ status) (h6 : status < 600) (hn : status ≠ 503)
    (hmt : (strL "image/").isPrefixOf mt = true) :
    query_image (.ok status body) =
      .error ⟨500, "Error communicating with image captioning service: " ++ statusErrMsg status⟩ ∧
    query_image (.transportError m) =
      .error ⟨500, "Error communicating with image captioning service: " ++ m⟩ ∧
    generate_story c p (.ok status body) =
      .error (.exc ⟨500, "Error generating story: " ++ statusErrMsg status⟩) ∧
    generate_story c p (.transportError m) =
      .error (.exc ⟨500, "Error generating story: " ++ m⟩) ∧
    (caption_image mt pq (.ok status body) sR).result =
      .error ⟨500, "Error communicating with image captioning service: " ++ statusErrMsg status⟩ := by
  refine ⟨?_, ?_, ?_, ?_, ?_⟩ <;>
    simp [caption_image, query_image, generate_story, h4, h6, hn, hmt]

/-- Witness for C8 at status 500 and a concrete transport error. -/
theorem claim8_witness :
    query_image (.ok 500 []) =
      .error ⟨500, "Error communicating with image captioning service: " ++ statusErrMsg 500⟩ ∧
    query_image (.transportError "boom") =
      .error ⟨500, "Error communicating with image captioning service: " ++ "boom"⟩ ∧
    generate_story (strL "cat") [] (.ok 500 []) =
      .error (.exc ⟨500, "Error generating story: " ++ statusErrMsg 500⟩) ∧
    generate_story (strL "cat") [] (.transportError "boom") =
      .error (.exc ⟨500, "Error generating story: " ++ "boom"⟩) ∧
    (caption_image (strL "image/png") none (.ok 500 []) .timeout).result =
      .error ⟨500, "Error communicating with image captioning service: " ++ statusErrMsg 500⟩ :=
  claim8_upstream_error_500 500 [] "boom" (strL "cat") [] (strL "image/png") none .timeout
    (by decide) (by decide) (by decide) (by decide)

/-- Claim C9 as stated is false: when the user prompt is the filler
sentence itself — non-empty — the composed instruction still contains the
filler sentence, so containment of the filler does not hold exactly when
the prompt is empty. -/
theorem claim9_counterexample :
    ¬ (containsL fillerL (story_prompt [] fillerL) = true ↔ fillerL = []) := by
  decide

/-- Claim C9 (amended): the composed instruction contains the default
filler sentence whenever the user prompt is empty, contains the literal
user prompt whenever it is non-empty, and always consists of the fixed
preamble, the caption, the context header with the chosen context text,
and the trailing Story: cue. -/
theorem claim9_amended (c p : List Char) :
    (p = [] → containsL fillerL (story_prompt c p) = true) ∧
    (p ≠ [] → containsL p (story_prompt c p) = true) ∧
    story_prompt c p =
      preambleL ++ c ++ contextHeaderL ++ (if p = [] then fillerL else p) ++ storyCueL := by
  refine ⟨?_, ?_, rfl⟩
  · intro hp
    subst hp
    exact contains_filler c
  · intro hp
    exact contains_user c p hp

/-- Witness for the amended C9 at concrete prompts. -/
theorem claim9_witness :
    containsL (strL "go") (story_prompt (strL "cat") (strL "go")) = true ∧
    containsL fillerL (story_prompt (strL "cat") []) = true :=
  ⟨(claim9_amended (strL "cat") (strL "go")).2.1 (by decide),
    (claim9_amended (strL "cat") []).1 rfl⟩

/-- Claim C10: an omitted prompt query parameter defaults to the empty
string, so the route behaves identically to an explicitly empty prompt,
and the composed instruction uses the default filler sentence. -/
theorem claim10_omitted_prompt_defaults (mt c : List Char) (cR sR : HttpOutcome) :
    caption_image mt none cR sR = caption_image mt (some []) cR sR ∧
    story_prompt c ((none : Option (List Char)).getD [])
      = story_prompt c ((some ([] : List Char)).getD []) ∧
    containsL fillerL (story_prompt c ((none : Option (List Char)).getD [])) = true :=
  ⟨rfl, rfl, contains_filler c⟩

end Phord
